import Mathlib

set_option linter.unusedVariables false

/-!
Verification of the OAuth correlation provider of `chuk-mcp-linkedin`
(`src/chuk_mcp_linkedin/oauth/provider.py`), a shallow embedding.

The provider class `LinkedInOAuthProvider` is embedded as a family of pure
state transformers over `ProviderState`.  Python dictionaries become
association lists, `time.time()` becomes an explicit `now : Nat` argument,
network calls to LinkedIn (`exchange_code_for_token`, `get_user_info`,
`refresh_access_token`) become oracle arguments of type `Except String _`,
and random generation (`secrets.token_urlsafe`, store-generated codes and
tokens) becomes explicit fresh-string arguments.  Raised exceptions become
`Except OAuthError`.

The backing `TokenStore` comes from the external package `chuk_mcp_server`
and its code is not in this repository; its operations are modelled from the
spec (each such definition carries a `Modelled from the spec:` doc comment).
-/

namespace ChukLinkedIn

/-- Association-list lookup keyed by strings, mirroring Python `dict.get`. -/
def alookup (k : String) : List (String × α) → Option α
  | [] => none
  | (k', v) :: rest => if k' == k then some v else alookup k rest

/-- Removal of a key, mirroring Python `del d[k]` (dict keys are unique). -/
def aerase (k : String) (l : List (String × α)) : List (String × α) :=
  l.filter (fun p => !(p.1 == k))

/-- Insertion/overwrite of a key, mirroring Python `d[k] = v`. -/
def ainsert (k : String) (v : α) (l : List (String × α)) : List (String × α) :=
  (k, v) :: aerase k l

/-- Entry of the module-level `_authorization_code_cache` in `provider.py`:
the dict literal built at the end of `handle_external_callback`. -/
structure CodeData where
  user_id : String
  client_id : String
  redirect_uri : String
  scope : Option String
  code_challenge : Option String
  code_challenge_method : Option String
  created_at : Nat
  deriving Repr, DecidableEq

/-- Entry of `self._pending_authorizations` in `provider.py`.  `authorize`
stores the six `mcp_*` keys and never a `user_id` key; since the Python value
is a heterogeneous `Dict[str, Any]` read back with `.get("user_id")`, the
possibly-absent `user_id` key is an `Option` field (always `none` for entries
created by `authorize`). -/
structure PendingAuth where
  user_id : Option String
  mcp_client_id : String
  mcp_redirect_uri : String
  mcp_state : String
  mcp_scope : Option String
  mcp_code_challenge : Option String
  mcp_code_challenge_method : Option String
  deriving Repr, DecidableEq

/-- Modelled from the spec: `AuthorizationCode` record held by the external
`TokenStore` (`chuk_mcp_server.oauth.TokenStore`, not in this repository) —
"single-use artifact binding `user_id`, `client_id`, `redirect_uri`, `scope`,
and optional PKCE challenge, with a creation timestamp". -/
structure StoreCode where
  user_id : String
  client_id : String
  redirect_uri : String
  scope : Option String
  code_challenge : Option String
  code_challenge_method : Option String
  created_at : Nat
  deriving Repr, DecidableEq

/-- Modelled from the spec: `ExternalToken` record of the external
`TokenStore` — "per-`user_id`, per-provider record of `access_token`,
optional `refresh_token`, `expires_at` (derived from `expires_in` at link
time)".  The `expires_in` supplied at link time is kept so that the
provider's `.get("expires_in", 5184000)` read is expressible. -/
structure ExternalToken where
  access_token : String
  refresh_token : Option String
  expires_in : Nat
  expires_at : Nat
  deriving Repr, DecidableEq

/-- Modelled from the spec: local `IssuedToken` data of the external
`TokenStore` — "local access/refresh token pair bound to `user_id` and
`client_id`" with expiry tracking. -/
structure AccessTokenData where
  user_id : String
  client_id : String
  scope : Option String
  expires_at : Nat
  deriving Repr, DecidableEq

/-- Modelled from the spec: the external `TokenStore`'s contents — "persists
client registrations, authorization codes, access/refresh tokens, and linked
external-provider tokens, with expiry tracking"; external tokens are keyed by
`(user_id, provider_name)`. -/
structure Store where
  clients : List (String × List String)
  authCodes : List (String × StoreCode)
  accessTokens : List (String × AccessTokenData)
  refreshTokens : List (String × AccessTokenData)
  externalTokens : List (String × String × ExternalToken)
  deriving Repr, DecidableEq

/-- Lookup of a linked external token by `(user_id, provider)`. -/
def extLookup (uid provider : String) : List (String × String × ExternalToken) → Option ExternalToken
  | [] => none
  | (u, p, t) :: rest =>
      if u == uid && p == provider then some t else extLookup uid provider rest

/-- Removal of the `(user_id, provider)` entry, used by the upsert. -/
def extErase (uid provider : String) (l : List (String × String × ExternalToken)) :
    List (String × String × ExternalToken) :=
  l.filter (fun e => !(e.1 == uid && e.2.1 == provider))

/-- Modelled from the spec: `TokenStore.validate_client` — "validates
`client_id`/`redirect_uri` against the Client Registration store". -/
def Store.validate_client (s : Store) (client_id redirect_uri : String) : Bool :=
  match alookup client_id s.clients with
  | none => false
  | some uris => uris.contains redirect_uri

/-- Modelled from the spec: `TokenStore.create_authorization_code` — records
a new single-use code with a creation timestamp; the store-generated random
code string is passed in as `code`. -/
def Store.create_authorization_code (s : Store) (code user_id client_id redirect_uri : String)
    (scope code_challenge code_challenge_method : Option String) (now : Nat) : Store :=
  { s with
    authCodes :=
      ainsert code
        ({ user_id, client_id, redirect_uri, scope, code_challenge,
           code_challenge_method, created_at := now }) s.authCodes }

/-- Modelled from the spec: the PKCE hash the store compares a verifier
against; the spec fixes only that the check is
"hash `code_verifier`, compare to stored `code_challenge`". -/
def pkceHash (verifier : String) : String := "S256:" ++ verifier

/-- Modelled from the spec: the store's PKCE gate inside code validation —
"if a PKCE challenge was recorded, requires and checks `code_verifier`". -/
def storePkceOk (challenge : Option String) (verifier : Option String) : Bool :=
  match challenge with
  | none => true
  | some c =>
      match verifier with
      | none => false
      | some v => pkceHash v == c

/-- Modelled from the spec: `TokenStore.validate_authorization_code` —
"code validation is atomic consume-or-fail": the code must exist, be
unexpired (TTL 600 seconds from issuance), match `client_id`/`redirect_uri`
and the PKCE gate; on success it is consumed (deleted), on failure nothing
is consumed and `None` is returned. -/
def Store.validate_authorization_code (s : Store) (code client_id redirect_uri : String)
    (code_verifier : Option String) (now : Nat) : Option StoreCode × Store :=
  match alookup code s.authCodes with
  | none => (none, s)
  | some sc =>
      if now - sc.created_at < 600 &&
         sc.client_id == client_id && sc.redirect_uri == redirect_uri &&
         storePkceOk sc.code_challenge code_verifier then
        (some sc, { s with authCodes := aerase code s.authCodes })
      else
        (none, s)

/-- Modelled from the spec: `TokenStore.create_access_token` — mints a local
access/refresh token pair bound to `user_id` and `client_id` (the generated
random strings are passed in); local access tokens live 3600 seconds. -/
def Store.create_access_token (s : Store) (user_id client_id : String) (scope : Option String)
    (freshAccess freshRefresh : String) (now : Nat) : (String × String) × Store :=
  ((freshAccess, freshRefresh),
   { s with
     accessTokens :=
       ainsert freshAccess
         ({ user_id, client_id, scope, expires_at := now + 3600 }) s.accessTokens,
     refreshTokens :=
       ainsert freshRefresh
         ({ user_id, client_id, scope, expires_at := now + 3600 }) s.refreshTokens })

/-- Modelled from the spec: `TokenStore.get_external_token`. -/
def Store.get_external_token (s : Store) (user_id provider : String) : Option ExternalToken :=
  extLookup user_id provider s.externalTokens

/-- Modelled from the spec: `TokenStore.is_external_token_expired` — lazy
expiry check against `expires_at`; a missing token counts as expired. -/
def Store.is_external_token_expired (s : Store) (user_id provider : String) (now : Nat) : Bool :=
  match s.get_external_token user_id provider with
  | none => true
  | some t => t.expires_at ≤ now

/-- Modelled from the spec: `TokenStore.link_external_token` — upsert of the
`(user_id, provider)` row, `expires_at` derived from `expires_in` at link
time; "external-token update is a full replace, not a merge". -/
def Store.link_external_token (s : Store) (user_id access_token : String)
    (refresh_token : Option String) (expires_in : Nat) (provider : String) (now : Nat) : Store :=
  { s with externalTokens :=
      (user_id, provider,
        { access_token, refresh_token, expires_in, expires_at := now + expires_in })
      :: extErase user_id provider s.externalTokens }

/-- Modelled from the spec: `TokenStore.update_external_token` — same full
replace as linking (mutated on refresh). -/
def Store.update_external_token (s : Store) (user_id access_token : String)
    (refresh_token : Option String) (expires_in : Nat) (provider : String) (now : Nat) : Store :=
  s.link_external_token user_id access_token refresh_token expires_in provider now

/-- Modelled from the spec: `TokenStore.validate_access_token` — resolves an
unexpired local access token to its bound data, `None` otherwise. -/
def Store.validate_access_token (s : Store) (token : String) (now : Nat) :
    Option AccessTokenData :=
  match alookup token s.accessTokens with
  | none => none
  | some d => if now < d.expires_at then some d else none

/-- The store's code record read back as the `code_data` dict the provider
consumes (same keys as the cache entries). -/
def StoreCode.toCodeData (sc : StoreCode) : CodeData :=
  { user_id := sc.user_id, client_id := sc.client_id, redirect_uri := sc.redirect_uri,
    scope := sc.scope, code_challenge := sc.code_challenge,
    code_challenge_method := sc.code_challenge_method, created_at := sc.created_at }

/-- `chuk_mcp_server.oauth.OAuthToken` as constructed by `provider.py`. -/
structure OAuthToken where
  access_token : String
  token_type : String
  expires_in : Nat
  refresh_token : Option String
  scope : Option String
  deriving Repr, DecidableEq

/-- The exceptions `provider.py` raises: `AuthorizeError`, `TokenError`
(each with `error` and `error_description`), bare `ValueError` in
`handle_external_callback`, and Python `KeyError` for a subscript on a
missing key. -/
inductive OAuthError where
  | authorizeError (error description : String)
  | tokenError (error description : String)
  | valueError (msg : String)
  | keyError (key : String)
  deriving Repr, DecidableEq

/-- The mutable state a `LinkedInOAuthProvider` instance reads and writes:
the module-level `_authorization_code_cache`, the instance dict
`_pending_authorizations`, and the backing token store. -/
structure ProviderState where
  cache : List (String × CodeData)
  pending : List (String × PendingAuth)
  store : Store
  deriving Repr, DecidableEq

/-- Result of `authorize`: either `{"code": ..., "state": ...}` or
`{"authorization_url": ..., "state": ..., "requires_external_authorization": True}`. -/
inductive AuthorizeResult where
  | issued (code state : String)
  | externalRedirect (authorization_url state : String)
  deriving Repr, DecidableEq

/-- Response dict of the LinkedIn token endpoint as `provider.py` reads it:
`access_token` (always present), `refresh_token` and `expires_in` read with
`.get`. -/
structure LinkedInTokenResponse where
  access_token : String
  refresh_token : Option String
  expires_in : Option Nat
  deriving Repr, DecidableEq

/-- Return dict of `handle_external_callback`. -/
structure CallbackResult where
  code : String
  state : String
  redirect_uri : String
  deriving Repr, DecidableEq

/-- Return dict of `validate_access_token`: the proxy branch returns
`{user_id, external_access_token, valid}`, the standard branch returns the
store's token data (`user_id`, `client_id`, `scope`) plus
`external_access_token`; keys absent in one shape are `Option`s. -/
structure ValidateResult where
  user_id : String
  client_id : Option String
  scope : Option String
  external_access_token : String
  valid : Option Bool
  deriving Repr, DecidableEq

/-- `LinkedInOAuthClient.get_authorization_url` with the default scopes:
the fixed authorization endpoint plus the query parameters in source order
(`urlencode`'s percent-escaping is not modelled; `+` joins the
space-separated scopes as `quote_plus` renders them). -/
def get_authorization_url (li_client_id li_redirect_uri state : String) : String :=
  "https://www.linkedin.com/oauth/v2/authorization?response_type=code&client_id="
    ++ li_client_id ++ "&redirect_uri=" ++ li_redirect_uri ++ "&state=" ++ state
    ++ "&scope=openid+profile+w_member_social+email"

/-- Constructor configuration of `LinkedInOAuthProvider` that the modelled
methods read: the `OAUTH_PROXY_MODE` flag and the LinkedIn client's
credentials used by the URL builder. -/
structure ProviderConfig where
  proxy_mode : Bool
  linkedin_client_id : String
  linkedin_redirect_uri : String
  deriving Repr, DecidableEq

namespace LinkedInOAuthProvider

/-- The `_pending_authorizations` entry `authorize` stores (lines 195–202 of
`provider.py`): the six `mcp_*` keys and no `user_id` key. -/
def pendingEntry (client_id redirect_uri state : String)
    (scope code_challenge code_challenge_method : Option String) : PendingAuth :=
  { user_id := none, mcp_client_id := client_id, mcp_redirect_uri := redirect_uri,
    mcp_state := state, mcp_scope := scope, mcp_code_challenge := code_challenge,
    mcp_code_challenge_method := code_challenge_method }

/-- The "need LinkedIn authorization" tail of `authorize` (lines 190–212 of
`provider.py`): stores a `PendingAuthorization` under the fresh state and
returns the external authorization URL. -/
def authorizeRedirect (cfg : ProviderConfig) (ps : ProviderState)
    (client_id redirect_uri state : String)
    (scope code_challenge code_challenge_method : Option String)
    (freshState : String) :
    Except OAuthError AuthorizeResult × ProviderState :=
  let entry := pendingEntry client_id redirect_uri state scope code_challenge
    code_challenge_method
  let url := get_authorization_url cfg.linkedin_client_id cfg.linkedin_redirect_uri freshState
  (.ok (.externalRedirect url freshState),
   { ps with pending := ainsert freshState entry ps.pending })

/-- `LinkedInOAuthProvider.authorize`.  `state_param` is `params.state`
(`None` collapses to `""` via `params.state or ""`), `freshState` the value
of `secrets.token_urlsafe(32)`, `freshCode` the store-generated code of the
fast path, `now` the current time. -/
def authorize (cfg : ProviderConfig) (ps : ProviderState)
    (client_id redirect_uri : String) (state_param : Option String)
    (scope code_challenge code_challenge_method : Option String)
    (freshState freshCode : String) (now : Nat) :
    Except OAuthError AuthorizeResult × ProviderState :=
  if !(ps.store.validate_client client_id redirect_uri) then
    (.error (.authorizeError "invalid_client" "Invalid client_id or redirect_uri"), ps)
  else
    let state := state_param.getD ""
    match (alookup state ps.pending).bind (fun p => p.user_id) with
    | some uid =>
        if (ps.store.get_external_token uid "linkedin").isSome &&
           !(ps.store.is_external_token_expired uid "linkedin" now) then
          let store' := ps.store.create_authorization_code freshCode uid client_id
            redirect_uri scope code_challenge code_challenge_method now
          (.ok (.issued freshCode state),
           { ps with store := store', pending := aerase state ps.pending })
        else
          authorizeRedirect cfg ps client_id redirect_uri state scope code_challenge
            code_challenge_method freshState
    | none =>
        authorizeRedirect cfg ps client_id redirect_uri state scope code_challenge
          code_challenge_method freshState

/-- The cache block at the head of `exchange_authorization_code`
(lines 240–270 of `provider.py`): returns the consumed `code_data` (if the
cache path validated) and the cache after its deletions; the PKCE
missing-verifier `TokenError` is raised before the entry is deleted. -/
def cacheStep (cache : List (String × CodeData)) (code client_id redirect_uri : String)
    (code_verifier : Option String) (now : Nat) :
    Except OAuthError (Option CodeData) × List (String × CodeData) :=
  match alookup code cache with
  | none => (.ok none, cache)
  | some cached =>
      if now - cached.created_at < 600 then
        if cached.client_id == client_id && cached.redirect_uri == redirect_uri then
          if cached.code_challenge.isSome && cached.code_challenge_method.isSome &&
             code_verifier.isNone then
            (.error (.tokenError "invalid_grant" "code_verifier required for PKCE"), cache)
          else
            (.ok (some cached), aerase code cache)
        else
          (.ok none, cache)
      else
        (.ok none, aerase code cache)

/-- `LinkedInOAuthProvider.exchange_authorization_code`.  `freshAccess` and
`freshRefresh` are the store-generated token strings of the standard-mode
branch. -/
def exchange_authorization_code (cfg : ProviderConfig) (ps : ProviderState)
    (code client_id redirect_uri : String) (code_verifier : Option String)
    (freshAccess freshRefresh : String) (now : Nat) :
    Except OAuthError OAuthToken × ProviderState :=
  match cacheStep ps.cache code client_id redirect_uri code_verifier now with
  | (.error e, cache') => (.error e, { ps with cache := cache' })
  | (.ok cachedResult, cache') =>
      let (code_data, store') :=
        match cachedResult with
        | some cd => (some cd, ps.store)
        | none =>
            match ps.store.validate_authorization_code code client_id redirect_uri
                    code_verifier now with
            | (none, s') => (none, s')
            | (some sc, s') => (some sc.toCodeData, s')
      let ps' : ProviderState := { ps with cache := cache', store := store' }
      match code_data with
      | none =>
          (.error (.tokenError "invalid_grant" "Invalid or expired authorization code"), ps')
      | some cd =>
          if cfg.proxy_mode then
            match store'.get_external_token cd.user_id "linkedin" with
            | none => (.error (.tokenError "invalid_grant" "LinkedIn token not found"), ps')
            | some lt =>
                (.ok { access_token := lt.access_token, token_type := "Bearer",
                       expires_in := lt.expires_in, refresh_token := lt.refresh_token,
                       scope := cd.scope }, ps')
          else
            let ((a, r), store'') := store'.create_access_token cd.user_id client_id cd.scope
              freshAccess freshRefresh now
            (.ok { access_token := a, token_type := "Bearer", expires_in := 3600,
                   refresh_token := some r, scope := cd.scope },
             { ps' with store := store'' })

/-- `LinkedInOAuthProvider.handle_external_callback`.  `exchangeCode` is the
outcome of `linkedin_client.exchange_code_for_token(code)`,
`userInfoSub` the outcome of `linkedin_client.get_user_info(...)["sub"]`
(both network calls, so oracles), `freshCode` the store-generated MCP code. -/
def handle_external_callback (cfg : ProviderConfig) (ps : ProviderState)
    (code state : String)
    (exchangeCode : Except String LinkedInTokenResponse)
    (userInfoSub : Except String String)
    (freshCode : String) (now : Nat) :
    Except OAuthError CallbackResult × ProviderState :=
  match alookup state ps.pending with
  | none => (.error (.valueError "Invalid or expired state parameter"), ps)
  | some pending =>
      match exchangeCode with
      | .error e => (.error (.valueError ("LinkedIn token exchange failed: " ++ e)), ps)
      | .ok linkedin_token =>
          match userInfoSub with
          | .error e => (.error (.valueError ("Failed to get LinkedIn user info: " ++ e)), ps)
          | .ok user_id =>
              let store' := ps.store.link_external_token user_id linkedin_token.access_token
                linkedin_token.refresh_token (linkedin_token.expires_in.getD 5184000)
                "linkedin" now
              let store'' := store'.create_authorization_code freshCode user_id
                pending.mcp_client_id pending.mcp_redirect_uri pending.mcp_scope
                pending.mcp_code_challenge pending.mcp_code_challenge_method now
              let cache' := ainsert freshCode
                ({ user_id, client_id := pending.mcp_client_id,
                   redirect_uri := pending.mcp_redirect_uri, scope := pending.mcp_scope,
                   code_challenge := pending.mcp_code_challenge,
                   code_challenge_method := pending.mcp_code_challenge_method,
                   created_at := now }) ps.cache
              (.ok { code := freshCode, state := pending.mcp_state,
                     redirect_uri := pending.mcp_redirect_uri },
               { cache := cache', pending := aerase state ps.pending, store := store'' })

/-- `LinkedInOAuthProvider.validate_access_token`.  `userInfoSub` is the
proxy-branch userinfo oracle, `refreshTok` the outcome of
`linkedin_client.refresh_access_token(...)` in the standard branch. -/
def validate_access_token (cfg : ProviderConfig) (ps : ProviderState) (token : String)
    (userInfoSub : Except String String)
    (refreshTok : Except String LinkedInTokenResponse) (now : Nat) :
    Except OAuthError ValidateResult × ProviderState :=
  if cfg.proxy_mode then
    match userInfoSub with
    | .ok sub =>
        (.ok { user_id := sub, client_id := none, scope := none,
               external_access_token := token, valid := some true }, ps)
    | .error _ =>
        (.error (.tokenError "invalid_token" "Invalid or expired LinkedIn token"), ps)
  else
    match ps.store.validate_access_token token now with
    | none => (.error (.tokenError "invalid_token" "Invalid or expired access token"), ps)
    | some td =>
        match ps.store.get_external_token td.user_id "linkedin" with
        | none => (.error (.tokenError "insufficient_scope" "LinkedIn account not linked"), ps)
        | some lt =>
            if ps.store.is_external_token_expired td.user_id "linkedin" now then
              match lt.refresh_token with
              | some rt =>
                  match refreshTok with
                  | .error e =>
                      (.error (.tokenError "invalid_token"
                        ("Failed to refresh LinkedIn token: " ++ e)), ps)
                  | .ok newTok =>
                      let store' := ps.store.update_external_token td.user_id
                        newTok.access_token (some (newTok.refresh_token.getD rt))
                        (newTok.expires_in.getD 5184000) "linkedin" now
                      match store'.get_external_token td.user_id "linkedin" with
                      | none => (.error (.keyError "access_token"), { ps with store := store' })
                      | some lt' =>
                          (.ok { user_id := td.user_id, client_id := some td.client_id,
                                 scope := td.scope,
                                 external_access_token := lt'.access_token, valid := none },
                           { ps with store := store' })
              | none =>
                  (.error (.tokenError "invalid_token"
                    "LinkedIn token expired and no refresh token available"), ps)
            else
              (.ok { user_id := td.user_id, client_id := some td.client_id, scope := td.scope,
                     external_access_token := lt.access_token, valid := none }, ps)

end LinkedInOAuthProvider

/-! ## Basic facts about the association-list operations -/

theorem aerase_eq_of_alookup_none {α : Type} (k : String) (l : List (String × α))
    (h : alookup k l = none) : aerase k l = l := by
  induction l with
  | nil => rfl
  | cons hd tl ih =>
      obtain ⟨k', v⟩ := hd
      rw [alookup] at h
      by_cases hk : (k' == k) = true
      · rw [if_pos hk] at h
        exact absurd h (by simp)
      · rw [if_neg hk] at h
        have h1 := ih h
        unfold aerase at h1 ⊢
        rw [List.filter_cons]
        have hk' : (!(k' == k)) = true := by
          rcases Bool.eq_false_or_eq_true (k' == k) with h2 | h2
          · exact absurd h2 hk
          · simp [h2]
        rw [if_pos hk', h1]

theorem ainsert_length_of_fresh {α : Type} (k : String) (v : α) (l : List (String × α))
    (h : alookup k l = none) : (ainsert k v l).length = l.length + 1 := by
  unfold ainsert
  rw [aerase_eq_of_alookup_none k l h]
  simp

theorem alookup_ainsert_self {α : Type} (k : String) (v : α) (l : List (String × α)) :
    alookup k (ainsert k v l) = some v := by
  simp [ainsert, alookup]

theorem extLookup_head (uid provider : String) (t : ExternalToken)
    (l : List (String × String × ExternalToken)) :
    extLookup uid provider ((uid, provider, t) :: l) = some t := by
  simp [extLookup]

/-! ## Shape lemmas: one per control-flow branch of the embedded methods -/

/-- `authorize` when the client validates and no cached-user fast path
applies: one `PendingAuthorization` is stored under the fresh state and the
external URL is returned. -/
theorem authorize_redirect_eq (cfg : ProviderConfig) (ps : ProviderState)
    (client_id redirect_uri : String) (state_param : Option String)
    (scope cc ccm : Option String) (freshState freshCode : String) (now : Nat)
    (hclient : ps.store.validate_client client_id redirect_uri = true)
    (hno : ∀ uid, (alookup (state_param.getD "") ps.pending).bind (fun p => p.user_id) = some uid →
      ((ps.store.get_external_token uid "linkedin").isSome &&
        !(ps.store.is_external_token_expired uid "linkedin" now)) = false) :
    LinkedInOAuthProvider.authorize cfg ps client_id redirect_uri state_param scope cc ccm
        freshState freshCode now =
      (.ok (.externalRedirect
         (get_authorization_url cfg.linkedin_client_id cfg.linkedin_redirect_uri freshState)
         freshState),
       { ps with
         pending :=
           ainsert freshState
             (LinkedInOAuthProvider.pendingEntry client_id redirect_uri
               (state_param.getD "") scope cc ccm) ps.pending }) := by
  unfold LinkedInOAuthProvider.authorize
  rw [hclient]
  simp only [Bool.not_true, Bool.false_eq_true, if_false]
  cases hbind : (alookup (state_param.getD "") ps.pending).bind (fun p => p.user_id) with
  | none => rfl
  | some uid =>
      have hcond := hno uid hbind
      simp only [hcond, Bool.false_eq_true, if_false]
      rfl

/-- `authorize` on the fast path: a validated client whose resolved user
has an unexpired linked token gets a code immediately; the pending entry at
the incoming state is removed and no new one is created. -/
theorem authorize_fast_eq (cfg : ProviderConfig) (ps : ProviderState)
    (client_id redirect_uri : String) (state_param : Option String)
    (scope cc ccm : Option String) (freshState freshCode : String) (now : Nat)
    (uid : String) (lt : ExternalToken)
    (hclient : ps.store.validate_client client_id redirect_uri = true)
    (hbind : (alookup (state_param.getD "") ps.pending).bind (fun p => p.user_id) = some uid)
    (hget : ps.store.get_external_token uid "linkedin" = some lt)
    (hfresh : now < lt.expires_at) :
    LinkedInOAuthProvider.authorize cfg ps client_id redirect_uri state_param scope cc ccm
        freshState freshCode now =
      (.ok (.issued freshCode (state_param.getD "")),
       { ps with
         store := ps.store.create_authorization_code freshCode uid client_id redirect_uri
           scope cc ccm now,
         pending := aerase (state_param.getD "") ps.pending }) := by
  unfold LinkedInOAuthProvider.authorize
  rw [hclient]
  simp only [Bool.not_true, Bool.false_eq_true, if_false]
  rw [hbind]
  have hexp : ps.store.is_external_token_expired uid "linkedin" now = false := by
    unfold Store.is_external_token_expired
    rw [hget]
    simp [Nat.not_le.mpr hfresh]
  simp only [hget, hexp, Option.isSome_some, Bool.not_false, Bool.and_self, if_true]

/-- The `_authorization_code_cache` entry `handle_external_callback` stores
under the minted code (lines 593–601 of `provider.py`). -/
def callbackCacheEntry (uid : String) (p : PendingAuth) (now : Nat) : CodeData :=
  { user_id := uid, client_id := p.mcp_client_id, redirect_uri := p.mcp_redirect_uri,
    scope := p.mcp_scope, code_challenge := p.mcp_code_challenge,
    code_challenge_method := p.mcp_code_challenge_method, created_at := now }

/-- `handle_external_callback` on a stored state with both external calls
succeeding: links the external token, mints and caches the code, deletes the
pending entry, and returns the original caller's state and redirect URI. -/
theorem callback_ok_eq (cfg : ProviderConfig) (ps : ProviderState)
    (code state : String) (p : PendingAuth) (ltr : LinkedInTokenResponse)
    (uid freshCode : String) (now : Nat)
    (hp : alookup state ps.pending = some p) :
    LinkedInOAuthProvider.handle_external_callback cfg ps code state (.ok ltr) (.ok uid)
        freshCode now =
      (.ok { code := freshCode, state := p.mcp_state, redirect_uri := p.mcp_redirect_uri },
       { cache := ainsert freshCode (callbackCacheEntry uid p now) ps.cache,
         pending := aerase state ps.pending,
         store :=
           (ps.store.link_external_token uid ltr.access_token ltr.refresh_token
               (ltr.expires_in.getD 5184000) "linkedin" now).create_authorization_code
             freshCode uid p.mcp_client_id p.mcp_redirect_uri p.mcp_scope
             p.mcp_code_challenge p.mcp_code_challenge_method now }) := by
  unfold LinkedInOAuthProvider.handle_external_callback
  rw [hp]
  rfl

/-- `handle_external_callback` with an unknown state: fails and mutates
nothing. -/
theorem callback_unknown_state_eq (cfg : ProviderConfig) (ps : ProviderState)
    (code state : String) (ex : Except String LinkedInTokenResponse)
    (ui : Except String String) (freshCode : String) (now : Nat)
    (hp : alookup state ps.pending = none) :
    LinkedInOAuthProvider.handle_external_callback cfg ps code state ex ui freshCode now =
      (.error (.valueError "Invalid or expired state parameter"), ps) := by
  unfold LinkedInOAuthProvider.handle_external_callback
  rw [hp]

/-- `handle_external_callback` when the external code exchange fails: fails
and mutates nothing. -/
theorem callback_exchange_failure_eq (cfg : ProviderConfig) (ps : ProviderState)
    (code state : String) (p : PendingAuth) (e : String)
    (ui : Except String String) (freshCode : String) (now : Nat)
    (hp : alookup state ps.pending = some p) :
    LinkedInOAuthProvider.handle_external_callback cfg ps code state (.error e) ui
        freshCode now =
      (.error (.valueError ("LinkedIn token exchange failed: " ++ e)), ps) := by
  unfold LinkedInOAuthProvider.handle_external_callback
  rw [hp]

/-- `handle_external_callback` when identity resolution fails: fails and
mutates nothing — in particular no `ExternalToken` row is written. -/
theorem callback_userinfo_failure_eq (cfg : ProviderConfig) (ps : ProviderState)
    (code state : String) (p : PendingAuth) (ltr : LinkedInTokenResponse) (e : String)
    (freshCode : String) (now : Nat)
    (hp : alookup state ps.pending = some p) :
    LinkedInOAuthProvider.handle_external_callback cfg ps code state (.ok ltr) (.error e)
        freshCode now =
      (.error (.valueError ("Failed to get LinkedIn user info: " ++ e)), ps) := by
  unfold LinkedInOAuthProvider.handle_external_callback
  rw [hp]

/-- The cache block consumes a fresh, matching cached code (with the PKCE
presence gate passed). -/
theorem cacheStep_hit_eq (cache : List (String × CodeData))
    (code client_id redirect_uri : String) (code_verifier : Option String) (now : Nat)
    (cd : CodeData)
    (hc : alookup code cache = some cd)
    (hage : now - cd.created_at < 600)
    (hmatch : (cd.client_id == client_id && cd.redirect_uri == redirect_uri) = true)
    (hpkce : (cd.code_challenge.isSome && cd.code_challenge_method.isSome &&
      code_verifier.isNone) = false) :
    LinkedInOAuthProvider.cacheStep cache code client_id redirect_uri code_verifier now =
      (.ok (some cd), aerase code cache) := by
  unfold LinkedInOAuthProvider.cacheStep
  rw [hc]
  simp only [hage, if_true, hmatch, hpkce, Bool.false_eq_true, if_false]

/-- The cache block on a cached but mismatching `client_id`/`redirect_uri`:
nothing is consumed (`else: pass`). -/
theorem cacheStep_mismatch_eq (cache : List (String × CodeData))
    (code client_id redirect_uri : String) (code_verifier : Option String) (now : Nat)
    (cd : CodeData)
    (hc : alookup code cache = some cd)
    (hage : now - cd.created_at < 600)
    (hmis : (cd.client_id == client_id && cd.redirect_uri == redirect_uri) = false) :
    LinkedInOAuthProvider.cacheStep cache code client_id redirect_uri code_verifier now =
      (.ok none, cache) := by
  unfold LinkedInOAuthProvider.cacheStep
  rw [hc]
  simp only [hage, if_true, hmis, Bool.false_eq_true, if_false]

/-- A failed store validation consumes nothing: the store is unchanged. -/
theorem validate_authorization_code_fail_eq (s : Store)
    (code client_id redirect_uri : String) (code_verifier : Option String) (now : Nat)
    (h : (s.validate_authorization_code code client_id redirect_uri code_verifier now).1
      = none) :
    s.validate_authorization_code code client_id redirect_uri code_verifier now = (none, s) := by
  unfold Store.validate_authorization_code at h ⊢
  cases halc : alookup code s.authCodes with
  | none => simp only [halc]
  | some sc =>
      simp only [halc] at h ⊢
      split at h
      · exact absurd h (by simp)
      · next hcond => rw [if_neg hcond]

/-- Standard-mode exchange of a fresh, matching cached code: the cache entry
is consumed, a local token pair is minted, and the token carries the code's
recorded scope. -/
theorem exchange_cache_hit_standard_eq (cfg : ProviderConfig) (ps : ProviderState)
    (code client_id redirect_uri : String) (code_verifier : Option String)
    (a r : String) (now : Nat) (cd : CodeData)
    (hproxy : cfg.proxy_mode = false)
    (hc : alookup code ps.cache = some cd)
    (hage : now - cd.created_at < 600)
    (hmatch : (cd.client_id == client_id && cd.redirect_uri == redirect_uri) = true)
    (hpkce : (cd.code_challenge.isSome && cd.code_challenge_method.isSome &&
      code_verifier.isNone) = false) :
    LinkedInOAuthProvider.exchange_authorization_code cfg ps code client_id redirect_uri
        code_verifier a r now =
      (.ok { access_token := a, token_type := "Bearer", expires_in := 3600,
             refresh_token := some r, scope := cd.scope },
       { cache := aerase code ps.cache, pending := ps.pending,
         store := (ps.store.create_access_token cd.user_id client_id cd.scope a r now).2 }) := by
  unfold LinkedInOAuthProvider.exchange_authorization_code
  rw [cacheStep_hit_eq ps.cache code client_id redirect_uri code_verifier now cd
    hc hage hmatch hpkce]
  rw [hproxy]
  rfl

/-- Proxy-mode exchange of a fresh, matching cached code whose user has a
linked external token: the external token is passed through verbatim and
only the cache changes. -/
theorem exchange_cache_hit_proxy_eq (cfg : ProviderConfig) (ps : ProviderState)
    (code client_id redirect_uri : String) (code_verifier : Option String)
    (a r : String) (now : Nat) (cd : CodeData) (lt : ExternalToken)
    (hproxy : cfg.proxy_mode = true)
    (hc : alookup code ps.cache = some cd)
    (hage : now - cd.created_at < 600)
    (hmatch : (cd.client_id == client_id && cd.redirect_uri == redirect_uri) = true)
    (hpkce : (cd.code_challenge.isSome && cd.code_challenge_method.isSome &&
      code_verifier.isNone) = false)
    (hext : ps.store.get_external_token cd.user_id "linkedin" = some lt) :
    LinkedInOAuthProvider.exchange_authorization_code cfg ps code client_id redirect_uri
        code_verifier a r now =
      (.ok { access_token := lt.access_token, token_type := "Bearer",
             expires_in := lt.expires_in, refresh_token := lt.refresh_token,
             scope := cd.scope },
       { cache := aerase code ps.cache, pending := ps.pending, store := ps.store }) := by
  unfold LinkedInOAuthProvider.exchange_authorization_code
  rw [cacheStep_hit_eq ps.cache code client_id redirect_uri code_verifier now cd
    hc hage hmatch hpkce]
  rw [hproxy]
  simp only [hext]
  simp

/-- Proxy-mode exchange of a fresh, matching cached code whose user has no
linked external token: fails with `invalid_grant` after the cache entry has
already been consumed. -/
theorem exchange_cache_hit_proxy_no_token_eq (cfg : ProviderConfig) (ps : ProviderState)
    (code client_id redirect_uri : String) (code_verifier : Option String)
    (a r : String) (now : Nat) (cd : CodeData)
    (hproxy : cfg.proxy_mode = true)
    (hc : alookup code ps.cache = some cd)
    (hage : now - cd.created_at < 600)
    (hmatch : (cd.client_id == client_id && cd.redirect_uri == redirect_uri) = true)
    (hpkce : (cd.code_challenge.isSome && cd.code_challenge_method.isSome &&
      code_verifier.isNone) = false)
    (hext : ps.store.get_external_token cd.user_id "linkedin" = none) :
    LinkedInOAuthProvider.exchange_authorization_code cfg ps code client_id redirect_uri
        code_verifier a r now =
      (.error (.tokenError "invalid_grant" "LinkedIn token not found"),
       { cache := aerase code ps.cache, pending := ps.pending, store := ps.store }) := by
  unfold LinkedInOAuthProvider.exchange_authorization_code
  rw [cacheStep_hit_eq ps.cache code client_id redirect_uri code_verifier now cd
    hc hage hmatch hpkce]
  rw [hproxy]
  simp only [hext]
  simp

/-- Exchange of a cached, unexpired code under a mismatching
`client_id`/`redirect_uri` (with the store fallback also failing): raises
`invalid_grant` and mutates nothing — the cached code survives. -/
theorem exchange_cache_mismatch_eq (cfg : ProviderConfig) (ps : ProviderState)
    (code client_id redirect_uri : String) (code_verifier : Option String)
    (a r : String) (now : Nat) (cd : CodeData)
    (hc : alookup code ps.cache = some cd)
    (hage : now - cd.created_at < 600)
    (hmis : (cd.client_id == client_id && cd.redirect_uri == redirect_uri) = false)
    (hstore : (ps.store.validate_authorization_code code client_id redirect_uri
      code_verifier now).1 = none) :
    LinkedInOAuthProvider.exchange_authorization_code cfg ps code client_id redirect_uri
        code_verifier a r now =
      (.error (.tokenError "invalid_grant" "Invalid or expired authorization code"), ps) := by
  unfold LinkedInOAuthProvider.exchange_authorization_code
  rw [cacheStep_mismatch_eq ps.cache code client_id redirect_uri code_verifier now cd
    hc hage hmis]
  rw [validate_authorization_code_fail_eq ps.store code client_id redirect_uri
    code_verifier now hstore]

/-! ## A concrete run of the protocol, used by the closed theorems -/

/-- The standard-mode `OAuthToken` shape (`expires_in` 3600, Bearer). -/
def stdToken (a r : String) (scope : Option String) : OAuthToken :=
  { access_token := a, token_type := "Bearer", expires_in := 3600,
    refresh_token := some r, scope := scope }

/-- A `CallbackResult` literal. -/
def cbResult (code state redirect_uri : String) : CallbackResult :=
  { code := code, state := state, redirect_uri := redirect_uri }

/-- A standard-mode provider configuration. -/
def demoCfg : ProviderConfig :=
  { proxy_mode := false, linkedin_client_id := "li-app",
    linkedin_redirect_uri := "https://srv/li-cb" }

/-- The same provider with `OAUTH_PROXY_MODE=true`. -/
def demoCfgProxy : ProviderConfig := { demoCfg with proxy_mode := true }

/-- A store holding one registered client. -/
def demoStore0 : Store :=
  { clients := [("client-1", ["https://app.example/cb"])], authCodes := [],
    accessTokens := [], refreshTokens := [], externalTokens := [] }

/-- Initial provider state: empty cache and pending map. -/
def demoPS0 : ProviderState := { cache := [], pending := [], store := demoStore0 }

/-- The token response LinkedIn's token endpoint returns in the demo run. -/
def demoLinkedInToken : LinkedInTokenResponse :=
  { access_token := "li-at", refresh_token := some "li-rt", expires_in := some 3600 }

/-- Step 1 at time 0: the MCP client asks for authorization (state `s1`,
scope `profile`, no PKCE); no LinkedIn link exists, so this stores a pending
authorization under the fresh state `li-state-1`. -/
def demoAuthorize : Except OAuthError AuthorizeResult × ProviderState :=
  LinkedInOAuthProvider.authorize demoCfg demoPS0 "client-1" "https://app.example/cb"
    (some "s1") (some "profile") none none "li-state-1" "unused-code" 0

/-- State after step 1. -/
def demoPS1 : ProviderState := demoAuthorize.2

/-- Step 2 at time 100: LinkedIn redirects back with `li-state-1`; both
external calls succeed, the MCP code `mcp-code-1` is minted. -/
def demoCallback : Except OAuthError CallbackResult × ProviderState :=
  LinkedInOAuthProvider.handle_external_callback demoCfg demoPS1 "li-code" "li-state-1"
    (.ok demoLinkedInToken) (.ok "user-1") "mcp-code-1" 100

/-- State after step 2. -/
def demoPS2 : ProviderState := demoCallback.2

/-- Step 3 at time 150 (50 s after issuance, well within the 600 s TTL):
first exchange of `mcp-code-1` with the matching client and redirect URI. -/
def demoExchange1 : Except OAuthError OAuthToken × ProviderState :=
  LinkedInOAuthProvider.exchange_authorization_code demoCfg demoPS2 "mcp-code-1" "client-1"
    "https://app.example/cb" none "at-1" "rt-1" 150

/-- Step 4 at time 200: second exchange of the very same `mcp-code-1`,
again with matching parameters and within the TTL. -/
def demoExchange2 : Except OAuthError OAuthToken × ProviderState :=
  LinkedInOAuthProvider.exchange_authorization_code demoCfg demoExchange1.2 "mcp-code-1"
    "client-1" "https://app.example/cb" none "at-2" "rt-2" 200

/-! ## C1 -/

/-- C1: the claim says a second exchange of the same code (matching
`client_id`/`redirect_uri`, within the 600 s TTL) must fail with
`InvalidGrant` because the code is single-use across both the module-level
cache and the token store.  The code violates this: the first exchange
deletes only the cache copy, so the second exchange at time 200 is served by
the token-store fallback (`validate_authorization_code`), which still holds
the copy written by `handle_external_callback`, and succeeds as well. -/
theorem C1_authorization_code_double_spend :
    demoExchange1.1 = .ok (stdToken "at-1" "rt-1" (some "profile")) ∧
    demoExchange2.1 = .ok (stdToken "at-2" "rt-2" (some "profile")) :=
  ⟨rfl, rfl⟩

/-! ## C2 -/

/-- The callback of the demo run delayed to time 1000000: the pending entry
`li-state-1` is then 1000000 seconds old, far beyond any 600 s / 10 min TTL. -/
def demoLateCallback : Except OAuthError CallbackResult × ProviderState :=
  LinkedInOAuthProvider.handle_external_callback demoCfg demoPS1 "li-code" "li-state-1"
    (.ok demoLinkedInToken) (.ok "user-1") "mcp-code-late" 1000000

/-- C2 counterexample: the claim says `handle_external_callback` on a
`PendingAuthorization` older than the configured TTL fails with
`InvalidState` even though the state matches.  Here the entry was created at
time 0 and the callback runs at time 1000000, yet it succeeds. -/
theorem C2_cex_expired_pending_state_accepted :
    demoLateCallback.1 = .ok (cbResult "mcp-code-late" "s1" "https://app.example/cb") :=
  rfl

/-- C2 (amended): pending authorizations carry no timestamp and never expire
by age — `handle_external_callback` checks only membership of the state in
the pending map, so for a stored state (with the external calls succeeding)
it succeeds at any time, regardless of the entry's age. -/
theorem C2_amended_pending_never_expires (cfg : ProviderConfig) (ps : ProviderState)
    (code state : String) (p : PendingAuth) (ltr : LinkedInTokenResponse)
    (uid freshCode : String) (now : Nat)
    (hp : alookup state ps.pending = some p) :
    (LinkedInOAuthProvider.handle_external_callback cfg ps code state (.ok ltr) (.ok uid)
      freshCode now).1 =
      .ok (cbResult freshCode p.mcp_state p.mcp_redirect_uri) := by
  rw [callback_ok_eq cfg ps code state p ltr uid freshCode now hp]
  rfl

/-- Witness for the amended C2 at a concrete aged entry (age 999999 s). -/
theorem C2_amended_pending_never_expires_witness :
    (LinkedInOAuthProvider.handle_external_callback demoCfg demoPS1 "li-code" "li-state-1"
      (.ok demoLinkedInToken) (.ok "user-1") "w-code" 999999).1 =
      .ok (cbResult "w-code" "s1" "https://app.example/cb") :=
  C2_amended_pending_never_expires demoCfg demoPS1 "li-code" "li-state-1"
    (LinkedInOAuthProvider.pendingEntry "client-1" "https://app.example/cb" "s1"
      (some "profile") none none)
    demoLinkedInToken "user-1" "w-code" 999999 rfl

/-! ## C3 -/

/-- Step 1 of a PKCE-carrying run: `authorize` records code challenge
`CHAL` with method `S256`. -/
def pkceAuthorize : Except OAuthError AuthorizeResult × ProviderState :=
  LinkedInOAuthProvider.authorize demoCfg demoPS0 "client-1" "https://app.example/cb"
    (some "s2") (some "profile") (some "CHAL") (some "S256") "li-state-2" "unused-code" 0

/-- Step 2: the callback mints `mcp-code-2` bound to that challenge. -/
def pkceCallback : Except OAuthError CallbackResult × ProviderState :=
  LinkedInOAuthProvider.handle_external_callback demoCfg pkceAuthorize.2 "li-code"
    "li-state-2" (.ok demoLinkedInToken) (.ok "user-1") "mcp-code-2" 100

/-- Step 3: exchange of `mcp-code-2` supplying a verifier that does not
correspond to the recorded challenge `CHAL` under any hash. -/
def pkceExchangeWrongVerifier : Except OAuthError OAuthToken × ProviderState :=
  LinkedInOAuthProvider.exchange_authorization_code demoCfg pkceCallback.2 "mcp-code-2"
    "client-1" "https://app.example/cb" (some "not-the-challenge-preimage") "at-1" "rt-1" 150

/-- C3: the claim says the provider checks the supplied `code_verifier`
against the recorded `code_challenge` and rejects a non-corresponding
verifier.  The cached-code path only requires the verifier to be present
(the comparison is a no-op comment in the source), so this exchange with a
wrong verifier succeeds. -/
theorem C3_pkce_verifier_not_checked :
    pkceExchangeWrongVerifier.1 = .ok (stdToken "at-1" "rt-1" (some "profile")) :=
  rfl

/-! ## C4 -/

/-- C4: for a validated client, `authorize` either takes the fast path —
the state's resolved user has a linked, unexpired external token, a code is
minted and `{code, state}` returned with no `PendingAuthorization` created
(the entry at the incoming state is removed) — or it stores exactly one
`PendingAuthorization` under the freshly generated state and returns the
external authorization URL. -/
theorem C4_authorize_fast_path_or_single_pending
    (cfg : ProviderConfig) (ps : ProviderState) (client_id redirect_uri : String)
    (state_param : Option String) (scope cc ccm : Option String)
    (freshState freshCode : String) (now : Nat)
    (hclient : ps.store.validate_client client_id redirect_uri = true)
    (hfreshSt : alookup freshState ps.pending = none) :
    (∀ uid lt,
      (alookup (state_param.getD "") ps.pending).bind (fun p => p.user_id) = some uid →
      ps.store.get_external_token uid "linkedin" = some lt →
      now < lt.expires_at →
      LinkedInOAuthProvider.authorize cfg ps client_id redirect_uri state_param scope cc ccm
          freshState freshCode now =
        (.ok (.issued freshCode (state_param.getD "")),
         { ps with
           store := ps.store.create_authorization_code freshCode uid client_id redirect_uri
             scope cc ccm now,
           pending := aerase (state_param.getD "") ps.pending })) ∧
    ((∀ uid,
        (alookup (state_param.getD "") ps.pending).bind (fun p => p.user_id) = some uid →
        ((ps.store.get_external_token uid "linkedin").isSome &&
          !(ps.store.is_external_token_expired uid "linkedin" now)) = false) →
      LinkedInOAuthProvider.authorize cfg ps client_id redirect_uri state_param scope cc ccm
          freshState freshCode now =
        (.ok (.externalRedirect
           (get_authorization_url cfg.linkedin_client_id cfg.linkedin_redirect_uri freshState)
           freshState),
         { ps with
           pending :=
             ainsert freshState
               (LinkedInOAuthProvider.pendingEntry client_id redirect_uri
                 (state_param.getD "") scope cc ccm) ps.pending }) ∧
      (ainsert freshState
        (LinkedInOAuthProvider.pendingEntry client_id redirect_uri (state_param.getD "")
          scope cc ccm) ps.pending).length = ps.pending.length + 1) := by
  constructor
  · intro uid lt hbind hget hfresh
    exact authorize_fast_eq cfg ps client_id redirect_uri state_param scope cc ccm
      freshState freshCode now uid lt hclient hbind hget hfresh
  · intro hno
    refine ⟨authorize_redirect_eq cfg ps client_id redirect_uri state_param scope cc ccm
      freshState freshCode now hclient hno, ?_⟩
    exact ainsert_length_of_fresh freshState _ ps.pending hfreshSt

/-- A pending entry whose dict carries a `user_id` key, together with a
live linked token — exercises the fast path of `authorize`. -/
def fastPS : ProviderState :=
  { cache := [],
    pending := [("s-fast",
      { user_id := some "user-1", mcp_client_id := "client-1",
        mcp_redirect_uri := "https://app.example/cb", mcp_state := "",
        mcp_scope := none, mcp_code_challenge := none,
        mcp_code_challenge_method := none })],
    store := { demoStore0 with
      externalTokens := [("user-1", "linkedin",
        { access_token := "li-at", refresh_token := some "li-rt",
          expires_in := 3600, expires_at := 5000 })] } }

/-- Witness for C4: the fast path issues a code at time 100 (token live
until 5000) on `fastPS`; the redirect path on `demoPS0` stores exactly one
pending entry. -/
theorem C4_authorize_fast_path_or_single_pending_witness :
    (LinkedInOAuthProvider.authorize demoCfg fastPS "client-1" "https://app.example/cb"
      (some "s-fast") none none none "f1" "code-f" 100).1 =
        .ok (.issued "code-f" "s-fast") ∧
    (LinkedInOAuthProvider.authorize demoCfg demoPS0 "client-1" "https://app.example/cb"
      (some "s1") (some "profile") none none "li-state-1" "u" 0).2.pending.length =
        demoPS0.pending.length + 1 := by
  constructor
  · have h := (C4_authorize_fast_path_or_single_pending demoCfg fastPS "client-1"
      "https://app.example/cb" (some "s-fast") none none none "f1" "code-f" 100
      rfl rfl).1 "user-1"
      { access_token := "li-at", refresh_token := some "li-rt",
        expires_in := 3600, expires_at := 5000 } rfl rfl (by decide)
    rw [h]
    rfl
  · have h := (C4_authorize_fast_path_or_single_pending demoCfg demoPS0 "client-1"
      "https://app.example/cb" (some "s1") (some "profile") none none "li-state-1" "u" 0
      rfl rfl).2 (by intro uid hbind; exact absurd hbind (by simp [demoPS0, alookup]))
    rw [h.1]
    exact h.2

/-- After a successful callback, exchanging the minted code with the
pending flow's client and redirect URI (fresh, matching, PKCE presence gate
passed) yields — in either mode — a token whose scope is the pending flow's
recorded scope. -/
theorem exchange_of_callback_scope (cfg : ProviderConfig) (psc : ProviderState)
    (freshCode client_id redirect_uri : String) (verifier : Option String) (a r : String)
    (t1 t2 : Nat) (uid : String) (P : PendingAuth) (newTok : ExternalToken)
    (hcache : alookup freshCode psc.cache = some (callbackCacheEntry uid P t1))
    (hP1 : P.mcp_client_id = client_id) (hP2 : P.mcp_redirect_uri = redirect_uri)
    (hage : t2 - t1 < 600)
    (hpkce : (P.mcp_code_challenge.isSome && P.mcp_code_challenge_method.isSome &&
      verifier.isNone) = false)
    (hext : psc.store.get_external_token uid "linkedin" = some newTok) :
    ((LinkedInOAuthProvider.exchange_authorization_code cfg psc freshCode client_id
       redirect_uri verifier a r t2).1).map (fun tk => tk.scope) = .ok P.mcp_scope := by
  have hmatch : ((callbackCacheEntry uid P t1).client_id == client_id &&
      (callbackCacheEntry uid P t1).redirect_uri == redirect_uri) = true := by
    simp [callbackCacheEntry, hP1, hP2]
  cases hm : cfg.proxy_mode with
  | false =>
      rw [exchange_cache_hit_standard_eq cfg psc freshCode client_id redirect_uri verifier
        a r t2 (callbackCacheEntry uid P t1) hm hcache hage hmatch hpkce]
      rfl
  | true =>
      rw [exchange_cache_hit_proxy_eq cfg psc freshCode client_id redirect_uri verifier
        a r t2 (callbackCacheEntry uid P t1) newTok hm hcache hage hmatch hpkce hext]
      rfl

/-! ## C5 -/

/-- C5: through the complete flow — `authorize` (validated client, slow
path, requested scope recorded in the pending authorization), then
`handle_external_callback` on that pending state (external calls
succeeding), then `exchange_authorization_code` on the minted code
(matching client and redirect URI, within the 600 s TTL, PKCE presence gate
passed) — the returned token's `scope` equals the scope originally passed
to `authorize`, in either operating mode. -/
theorem C5_roundtrip_scope_preserved
    (cfg : ProviderConfig) (ps0 : ProviderState)
    (client_id redirect_uri : String) (state_param : Option String)
    (scope cc ccm : Option String) (freshState fc0 : String)
    (liCode : String) (ltr : LinkedInTokenResponse) (uid : String)
    (freshCode : String) (verifier : Option String) (a r : String)
    (t0 t1 t2 : Nat)
    (hclient : ps0.store.validate_client client_id redirect_uri = true)
    (hno : ∀ u,
      (alookup (state_param.getD "") ps0.pending).bind (fun p => p.user_id) = some u →
      ((ps0.store.get_external_token u "linkedin").isSome &&
        !(ps0.store.is_external_token_expired u "linkedin" t0)) = false)
    (hage : t2 - t1 < 600)
    (hpkce : (cc.isSome && ccm.isSome && verifier.isNone) = false) :
    ((LinkedInOAuthProvider.exchange_authorization_code cfg
       (LinkedInOAuthProvider.handle_external_callback cfg
         (LinkedInOAuthProvider.authorize cfg ps0 client_id redirect_uri state_param
           scope cc ccm freshState fc0 t0).2
         liCode freshState (.ok ltr) (.ok uid) freshCode t1).2
       freshCode client_id redirect_uri verifier a r t2).1).map (fun tk => tk.scope) =
      Except.ok scope := by
  have h1 := authorize_redirect_eq cfg ps0 client_id redirect_uri state_param scope cc ccm
    freshState fc0 t0 hclient hno
  rw [h1]
  have h2 := callback_ok_eq cfg
    { ps0 with
      pending :=
        ainsert freshState
          (LinkedInOAuthProvider.pendingEntry client_id redirect_uri (state_param.getD "")
            scope cc ccm) ps0.pending }
    liCode freshState
    (LinkedInOAuthProvider.pendingEntry client_id redirect_uri (state_param.getD "")
      scope cc ccm)
    ltr uid freshCode t1 (alookup_ainsert_self _ _ _)
  rw [h2]
  exact exchange_of_callback_scope cfg _ freshCode client_id redirect_uri verifier a r
    t1 t2 uid
    (LinkedInOAuthProvider.pendingEntry client_id redirect_uri (state_param.getD "")
      scope cc ccm)
    ({ access_token := ltr.access_token, refresh_token := ltr.refresh_token,
       expires_in := ltr.expires_in.getD 5184000,
       expires_at := t1 + ltr.expires_in.getD 5184000 })
    (alookup_ainsert_self _ _ _) rfl rfl hage hpkce (extLookup_head _ _ _ _)

/-- Witness for C5 on the demo run: the requested scope `profile` comes
back on the exchanged token. -/
theorem C5_roundtrip_scope_preserved_witness :
    ((LinkedInOAuthProvider.exchange_authorization_code demoCfg
       (LinkedInOAuthProvider.handle_external_callback demoCfg
         (LinkedInOAuthProvider.authorize demoCfg demoPS0 "client-1"
           "https://app.example/cb" (some "s1") (some "profile") none none
           "li-state-1" "fc0" 0).2
         "li-code" "li-state-1" (.ok demoLinkedInToken) (.ok "user-1") "mcp-w5" 100).2
       "mcp-w5" "client-1" "https://app.example/cb" none "at-w" "rt-w" 150).1).map
      (fun tk => tk.scope) = Except.ok (some "profile") :=
  C5_roundtrip_scope_preserved demoCfg demoPS0 "client-1" "https://app.example/cb"
    (some "s1") (some "profile") none none "li-state-1" "fc0" "li-code"
    demoLinkedInToken "user-1" "mcp-w5" none "at-w" "rt-w" 0 100 150
    rfl (by intro uid hbind; exact absurd hbind (by simp [demoPS0, alookup]))
    (by omega) rfl

/-! ## C6 -/

/-- Store validation either leaves the store unchanged or only deletes the
consumed code from the code table; every other table is untouched. -/
theorem validate_authorization_code_snd (s : Store)
    (code client_id redirect_uri : String) (code_verifier : Option String) (now : Nat) :
    (s.validate_authorization_code code client_id redirect_uri code_verifier now).2 = s ∨
    (s.validate_authorization_code code client_id redirect_uri code_verifier now).2 =
      { s with authCodes := aerase code s.authCodes } := by
  unfold Store.validate_authorization_code
  cases halc : alookup code s.authCodes with
  | none => left; rfl
  | some sc =>
      simp only [halc]
      split
      · right; rfl
      · left; rfl

/-- The cache block consumes an entry only for the code actually stored in
the cache under that key: `.ok (some cd)` forces `cache[code] = cd`. -/
theorem cacheStep_ok_some_inv (cache : List (String × CodeData))
    (code client_id redirect_uri : String) (code_verifier : Option String) (now : Nat)
    (cd : CodeData) (cache2 : List (String × CodeData))
    (h : LinkedInOAuthProvider.cacheStep cache code client_id redirect_uri code_verifier now
      = (.ok (some cd), cache2)) :
    alookup code cache = some cd := by
  unfold LinkedInOAuthProvider.cacheStep at h
  cases halc : alookup code cache with
  | none =>
      simp only [halc] at h
      exact absurd h (by simp)
  | some cached =>
      simp only [halc] at h
      split at h
      · split at h
        · split at h
          · exact absurd h (by simp)
          · simp only [Prod.mk.injEq, Except.ok.injEq, Option.some.injEq] at h
            exact congrArg some h.1
        · exact absurd h (by simp)
      · exact absurd h (by simp)

/-- A successful store validation returns exactly the record stored under
that code. -/
theorem validate_authorization_code_ok_inv (s : Store)
    (code client_id redirect_uri : String) (code_verifier : Option String) (now : Nat)
    (sc : StoreCode) (s2 : Store)
    (h : s.validate_authorization_code code client_id redirect_uri code_verifier now
      = (some sc, s2)) :
    alookup code s.authCodes = some sc := by
  unfold Store.validate_authorization_code at h
  cases halc : alookup code s.authCodes with
  | none =>
      simp only [halc] at h
      exact absurd h (by simp)
  | some sc0 =>
      simp only [halc] at h
      split at h
      · simp only [Prod.mk.injEq, Option.some.injEq] at h
        exact congrArg some h.1
      · exact absurd h (by simp)

/-- C6: in proxy mode, every successful `exchange_authorization_code` call
creates no local token record — the store's access- and refresh-token tables
are unchanged — and the returned `access_token` is, byte for byte, the
linked external token of the consumed code's own `user_id`: the witness
`cd` below is the record stored under `code` (in the module cache or, on
the fallback path, in the token store), and the token returned equals the
external token linked for `cd.user_id`. -/
theorem C6_proxy_exchange_no_local_token_passthrough
    (cfg : ProviderConfig) (ps : ProviderState)
    (code client_id redirect_uri : String) (verifier : Option String)
    (a r : String) (now : Nat) (tok : OAuthToken) (ps2 : ProviderState)
    (hproxy : cfg.proxy_mode = true)
    (hsucc : LinkedInOAuthProvider.exchange_authorization_code cfg ps code client_id
      redirect_uri verifier a r now = (.ok tok, ps2)) :
    ps2.store.accessTokens = ps.store.accessTokens ∧
    ps2.store.refreshTokens = ps.store.refreshTokens ∧
    ∃ cd lt,
      (alookup code ps.cache = some cd ∨
        ∃ sc, alookup code ps.store.authCodes = some sc ∧ sc.toCodeData = cd) ∧
      ps.store.get_external_token cd.user_id "linkedin" = some lt ∧
      tok.access_token = lt.access_token := by
  unfold LinkedInOAuthProvider.exchange_authorization_code at hsucc
  rw [hproxy] at hsucc
  split at hsucc
  · exact absurd hsucc (by simp)
  next mv0 cachedResult cache' heq1 =>
    split at hsucc
    next mv1 code_data store' heq2 =>
      cases code_data with
      | none => exact absurd hsucc (by simp)
      | some cd =>
          dsimp only [] at hsucc
          rw [if_pos rfl] at hsucc
          split at hsucc
          · exact absurd hsucc (by simp)
          next lt hext =>
            simp only [Prod.mk.injEq, Except.ok.injEq] at hsucc
            obtain ⟨htok, hps⟩ := hsucc
            subst htok
            subst hps
            cases cachedResult with
            | some cd0 =>
                simp only [Prod.mk.injEq, Option.some.injEq] at heq2
                obtain ⟨hcd0, hstore⟩ := heq2
                subst hstore
                subst hcd0
                have hc := cacheStep_ok_some_inv ps.cache code client_id redirect_uri
                  verifier now cd0 cache' heq1
                exact ⟨rfl, rfl, cd0, lt, Or.inl hc, hext, rfl⟩
            | none =>
                rcases hv : ps.store.validate_authorization_code code client_id
                  redirect_uri verifier now with ⟨o, s2⟩
                rw [hv] at heq2
                cases o with
                | none => exact absurd heq2 (by simp)
                | some sc =>
                    simp only [Prod.mk.injEq, Option.some.injEq] at heq2
                    obtain ⟨hcd, hstore⟩ := heq2
                    subst hstore
                    have hsc := validate_authorization_code_ok_inv ps.store code client_id
                      redirect_uri verifier now sc s2 hv
                    have hsnd := validate_authorization_code_snd ps.store code client_id
                      redirect_uri verifier now
                    rw [hv] at hsnd
                    rcases hsnd with h2 | h2 <;>
                      rw [show s2 = _ from h2] at hext ⊢ <;>
                      exact ⟨rfl, rfl, cd, lt, Or.inr ⟨sc, hsc, hcd⟩, hext, rfl⟩

/-- The proxy-mode exchange of the demo run's code at time 150. -/
def proxyExchange : Except OAuthError OAuthToken × ProviderState :=
  LinkedInOAuthProvider.exchange_authorization_code demoCfgProxy demoPS2 "mcp-code-1"
    "client-1" "https://app.example/cb" none "a" "r" 150

/-- The LinkedIn token as it comes back out of the proxy-mode exchange. -/
def proxyToken : OAuthToken :=
  { access_token := "li-at", token_type := "Bearer", expires_in := 3600,
    refresh_token := some "li-rt", scope := some "profile" }

/-- Witness for C6 on the demo run's proxy exchange: the code record under
`mcp-code-1` names `user-1`, and the returned token is `user-1`'s linked
external token. -/
theorem C6_proxy_exchange_no_local_token_passthrough_witness :
    proxyExchange.2.store.accessTokens = demoPS2.store.accessTokens ∧
    proxyExchange.2.store.refreshTokens = demoPS2.store.refreshTokens ∧
    ∃ cd lt,
      (alookup "mcp-code-1" demoPS2.cache = some cd ∨
        ∃ sc, alookup "mcp-code-1" demoPS2.store.authCodes = some sc ∧
          sc.toCodeData = cd) ∧
      demoPS2.store.get_external_token cd.user_id "linkedin" = some lt ∧
      proxyToken.access_token = lt.access_token :=
  C6_proxy_exchange_no_local_token_passthrough demoCfgProxy demoPS2 "mcp-code-1"
    "client-1" "https://app.example/cb" none "a" "r" 150 proxyToken proxyExchange.2
    rfl rfl

/-! ## C7 -/

/-- C7: every failing `handle_external_callback` call leaves the provider
state — cache, pending map, and store — untouched: an unknown state fails
with the InvalidState error and no mutation; a failing external code
exchange, or a failing identity resolution, returns the typed failure with
no `ExternalToken` row written, because the external-token write happens
only after identity resolution succeeds. -/
theorem C7_failing_callback_leaves_state_unchanged
    (cfg : ProviderConfig) (ps : ProviderState) (code state : String)
    (ex : Except String LinkedInTokenResponse) (ui : Except String String)
    (freshCode : String) (now : Nat) :
    (alookup state ps.pending = none →
      LinkedInOAuthProvider.handle_external_callback cfg ps code state ex ui freshCode now =
        (.error (.valueError "Invalid or expired state parameter"), ps)) ∧
    (∀ p e, alookup state ps.pending = some p → ex = .error e →
      LinkedInOAuthProvider.handle_external_callback cfg ps code state ex ui freshCode now =
        (.error (.valueError ("LinkedIn token exchange failed: " ++ e)), ps)) ∧
    (∀ p ltr e, alookup state ps.pending = some p → ex = .ok ltr → ui = .error e →
      LinkedInOAuthProvider.handle_external_callback cfg ps code state ex ui freshCode now =
        (.error (.valueError ("Failed to get LinkedIn user info: " ++ e)), ps)) := by
  refine ⟨?_, ?_, ?_⟩
  · intro hp
    exact callback_unknown_state_eq cfg ps code state ex ui freshCode now hp
  · intro p e hp hex
    subst hex
    exact callback_exchange_failure_eq cfg ps code state p e ui freshCode now hp
  · intro p ltr e hp hex hui
    subst hex
    subst hui
    exact callback_userinfo_failure_eq cfg ps code state p ltr e freshCode now hp

/-- Witness for C7: the three failure modes at concrete states — an unknown
state on the post-flow state, a failing exchange and a failing identity
lookup on the pending state — each return the original state unchanged. -/
theorem C7_failing_callback_leaves_state_unchanged_witness :
    LinkedInOAuthProvider.handle_external_callback demoCfg demoPS2 "badcode" "unknown-state"
      (.error "boom") (.error "boom2") "w7" 500 =
      (.error (.valueError "Invalid or expired state parameter"), demoPS2) ∧
    LinkedInOAuthProvider.handle_external_callback demoCfg demoPS1 "badcode" "li-state-1"
      (.error "exchange down") (.ok "user-1") "w7b" 500 =
      (.error (.valueError "LinkedIn token exchange failed: exchange down"), demoPS1) ∧
    LinkedInOAuthProvider.handle_external_callback demoCfg demoPS1 "li-code" "li-state-1"
      (.ok demoLinkedInToken) (.error "userinfo down") "w7c" 500 =
      (.error (.valueError "Failed to get LinkedIn user info: userinfo down"), demoPS1) := by
  refine ⟨?_, ?_, ?_⟩
  · exact (C7_failing_callback_leaves_state_unchanged demoCfg demoPS2 "badcode"
      "unknown-state" (.error "boom") (.error "boom2") "w7" 500).1 rfl
  · exact (C7_failing_callback_leaves_state_unchanged demoCfg demoPS1 "badcode"
      "li-state-1" (.error "exchange down") (.ok "user-1") "w7b" 500).2.1
      (LinkedInOAuthProvider.pendingEntry "client-1" "https://app.example/cb" "s1"
        (some "profile") none none) "exchange down" rfl rfl
  · exact (C7_failing_callback_leaves_state_unchanged demoCfg demoPS1 "li-code"
      "li-state-1" (.ok demoLinkedInToken) (.error "userinfo down") "w7c" 500).2.2
      (LinkedInOAuthProvider.pendingEntry "client-1" "https://app.example/cb" "s1"
        (some "profile") none none) demoLinkedInToken "userinfo down" rfl rfl rfl

/-! ## C9 -/

/-- C9: exchanging a cached, unexpired code with a mismatched `client_id`
or `redirect_uri` (the store fallback failing too) raises `invalid_grant`
and leaves the whole provider state — in particular the cached code —
untouched, so a subsequent exchange of the same code with the recorded
client and redirect URI (still within the TTL, PKCE presence gate passed,
standard mode) succeeds. -/
theorem C9_mismatched_exchange_preserves_code
    (cfg : ProviderConfig) (ps : ProviderState)
    (code client_id redirect_uri : String) (verifier verifier2 : Option String)
    (a r a2 r2 : String) (now now2 : Nat) (cd : CodeData)
    (hc : alookup code ps.cache = some cd)
    (hage : now - cd.created_at < 600)
    (hmis : (cd.client_id == client_id && cd.redirect_uri == redirect_uri) = false)
    (hstore : (ps.store.validate_authorization_code code client_id redirect_uri
      verifier now).1 = none)
    (hage2 : now2 - cd.created_at < 600)
    (hpkce2 : (cd.code_challenge.isSome && cd.code_challenge_method.isSome &&
      verifier2.isNone) = false)
    (hproxy : cfg.proxy_mode = false) :
    LinkedInOAuthProvider.exchange_authorization_code cfg ps code client_id redirect_uri
        verifier a r now =
      (.error (.tokenError "invalid_grant" "Invalid or expired authorization code"), ps) ∧
    (LinkedInOAuthProvider.exchange_authorization_code cfg ps code cd.client_id
        cd.redirect_uri verifier2 a2 r2 now2).1 =
      .ok (stdToken a2 r2 cd.scope) := by
  constructor
  · exact exchange_cache_mismatch_eq cfg ps code client_id redirect_uri verifier a r now
      cd hc hage hmis hstore
  · rw [exchange_cache_hit_standard_eq cfg ps code cd.client_id cd.redirect_uri verifier2
      a2 r2 now2 cd hproxy hc hage2 (by simp) hpkce2]
    rfl

/-- Witness for C9 on the demo run: the exchange with the unregistered
client `client-evil` fails and preserves the state; the retry with
`client-1` then succeeds. -/
theorem C9_mismatched_exchange_preserves_code_witness :
    LinkedInOAuthProvider.exchange_authorization_code demoCfg demoPS2 "mcp-code-1"
        "client-evil" "https://app.example/cb" none "a" "r" 150 =
      (.error (.tokenError "invalid_grant" "Invalid or expired authorization code"),
       demoPS2) ∧
    (LinkedInOAuthProvider.exchange_authorization_code demoCfg demoPS2 "mcp-code-1"
        "client-1" "https://app.example/cb" none "a2" "r2" 160).1 =
      .ok (stdToken "a2" "r2" (some "profile")) := by
  have h := C9_mismatched_exchange_preserves_code demoCfg demoPS2 "mcp-code-1"
    "client-evil" "https://app.example/cb" none none "a" "r" "a2" "r2" 150 160
    (callbackCacheEntry "user-1"
      (LinkedInOAuthProvider.pendingEntry "client-1" "https://app.example/cb" "s1"
        (some "profile") none none) 100)
    rfl (by decide) rfl rfl (by decide) rfl rfl
  exact ⟨h.1, h.2⟩

/-! ## C10 -/

/-- A proxy-mode state holding a matching code in both the module cache and
the token store, with no external token linked for its user. -/
def c10PS : ProviderState :=
  { cache := [("code-x",
      { user_id := "user-1", client_id := "client-1",
        redirect_uri := "https://app.example/cb", scope := some "profile",
        code_challenge := none, code_challenge_method := none, created_at := 0 })],
    pending := [],
    store := { demoStore0 with
      authCodes := [("code-x",
        { user_id := "user-1", client_id := "client-1",
          redirect_uri := "https://app.example/cb", scope := some "profile",
          code_challenge := none, code_challenge_method := none, created_at := 0 })] } }

/-- First proxy exchange of `code-x` at time 100: no external token linked. -/
def c10Ex1 : Except OAuthError OAuthToken × ProviderState :=
  LinkedInOAuthProvider.exchange_authorization_code demoCfgProxy c10PS "code-x" "client-1"
    "https://app.example/cb" none "a" "r" 100

/-- The state after the failed first exchange, once an external token has
been linked for `user-1` (as a later `handle_external_callback` would). -/
def c10PSLinked : ProviderState :=
  { c10Ex1.2 with
    store := c10Ex1.2.store.link_external_token "user-1" "li-at2" none 3600 "linkedin" 150 }

/-- Retry of the very same `code-x` at time 200. -/
def c10Ex2 : Except OAuthError OAuthToken × ProviderState :=
  LinkedInOAuthProvider.exchange_authorization_code demoCfgProxy c10PSLinked "code-x"
    "client-1" "https://app.example/cb" none "a" "r" 200

/-- The token the retry returns: the linked external token passed through. -/
def c10RetryToken : OAuthToken :=
  { access_token := "li-at2", token_type := "Bearer", expires_in := 3600,
    refresh_token := none, scope := some "profile" }

/-- C10 counterexample: the claim says the `invalid_grant` failure on a
missing external token is not retryable with the same code because the code
was consumed from the cache.  But only the cache copy is consumed: the
token-store copy survives, so after an external token is linked the retry
with the very same code succeeds via the store fallback. -/
theorem C10_cex_failed_proxy_exchange_retryable :
    c10Ex1.1 = .error (.tokenError "invalid_grant" "LinkedIn token not found") ∧
    c10Ex2.1 = .ok c10RetryToken :=
  ⟨rfl, rfl⟩

/-- C10 (amended): in proxy mode, a valid, matching, unexpired cached code
whose user has no linked external token fails with `invalid_grant`
("LinkedIn token not found"), and the cache copy of the code is consumed
before that lookup — so the cache path can never serve this code again; a
store copy, if present, may still serve a retry. -/
theorem C10_amended_proxy_no_token_consumes_cache
    (cfg : ProviderConfig) (ps : ProviderState)
    (code client_id redirect_uri : String) (verifier : Option String)
    (a r : String) (now : Nat) (cd : CodeData)
    (hproxy : cfg.proxy_mode = true)
    (hc : alookup code ps.cache = some cd)
    (hage : now - cd.created_at < 600)
    (hmatch : (cd.client_id == client_id && cd.redirect_uri == redirect_uri) = true)
    (hpkce : (cd.code_challenge.isSome && cd.code_challenge_method.isSome &&
      verifier.isNone) = false)
    (hext : ps.store.get_external_token cd.user_id "linkedin" = none) :
    LinkedInOAuthProvider.exchange_authorization_code cfg ps code client_id redirect_uri
        verifier a r now =
      (.error (.tokenError "invalid_grant" "LinkedIn token not found"),
       { cache := aerase code ps.cache, pending := ps.pending, store := ps.store }) :=
  exchange_cache_hit_proxy_no_token_eq cfg ps code client_id redirect_uri verifier a r
    now cd hproxy hc hage hmatch hpkce hext

/-- Witness for the amended C10 at the concrete `c10PS` state. -/
theorem C10_amended_proxy_no_token_consumes_cache_witness :
    LinkedInOAuthProvider.exchange_authorization_code demoCfgProxy c10PS "code-x"
        "client-1" "https://app.example/cb" none "a" "r" 100 =
      (.error (.tokenError "invalid_grant" "LinkedIn token not found"),
       { cache := aerase "code-x" c10PS.cache, pending := c10PS.pending,
         store := c10PS.store }) :=
  C10_amended_proxy_no_token_consumes_cache demoCfgProxy c10PS "code-x" "client-1"
    "https://app.example/cb" none "a" "r" 100
    { user_id := "user-1", client_id := "client-1",
      redirect_uri := "https://app.example/cb", scope := some "profile",
      code_challenge := none, code_challenge_method := none, created_at := 0 }
    rfl rfl (by decide) rfl rfl rfl

/-! ## C8 -/

/-- The result dict of a successful standard-mode validation: the store's
token data plus the external access token. -/
def validateOkResult (td : AccessTokenData) (ext : String) : ValidateResult :=
  { user_id := td.user_id, client_id := some td.client_id, scope := td.scope,
    external_access_token := ext, valid := none }

/-- C8: in standard mode, `validate_access_token` on a valid local token
whose linked external token is expired performs, when a refresh token
exists and the external refresh call succeeds, a synchronous
refresh-and-persist and returns `{user_id, external_access_token}` with the
new external access token, surfacing no failure; when no refresh token
exists it fails with `InvalidToken`. -/
theorem C8_validate_refreshes_or_invalid_token
    (cfg : ProviderConfig) (ps : ProviderState) (token : String)
    (ui : Except String String) (refreshTok : Except String LinkedInTokenResponse)
    (now : Nat) (td : AccessTokenData) (lt : ExternalToken)
    (hproxy : cfg.proxy_mode = false)
    (htd : ps.store.validate_access_token token now = some td)
    (hlt : ps.store.get_external_token td.user_id "linkedin" = some lt)
    (hexp : lt.expires_at ≤ now) :
    (∀ rt ntk, lt.refresh_token = some rt → refreshTok = .ok ntk →
      LinkedInOAuthProvider.validate_access_token cfg ps token ui refreshTok now =
        (.ok (validateOkResult td ntk.access_token),
         { cache := ps.cache, pending := ps.pending,
           store := ps.store.update_external_token td.user_id ntk.access_token
             (some (ntk.refresh_token.getD rt)) (ntk.expires_in.getD 5184000)
             "linkedin" now })) ∧
    (lt.refresh_token = none →
      LinkedInOAuthProvider.validate_access_token cfg ps token ui refreshTok now =
        (.error (.tokenError "invalid_token"
          "LinkedIn token expired and no refresh token available"), ps)) := by
  have hexpired : ps.store.is_external_token_expired td.user_id "linkedin" now = true := by
    unfold Store.is_external_token_expired
    rw [hlt]
    simpa using hexp
  constructor
  · intro rt ntk hrt hok
    subst hok
    unfold LinkedInOAuthProvider.validate_access_token
    simp only [hproxy, Bool.false_eq_true, if_false, htd, hlt, hexpired, if_true, hrt]
    have hre := extLookup_head td.user_id "linkedin"
      ({ access_token := ntk.access_token,
         refresh_token := some (ntk.refresh_token.getD rt),
         expires_in := ntk.expires_in.getD 5184000,
         expires_at := now + ntk.expires_in.getD 5184000 })
      (extErase td.user_id "linkedin" ps.store.externalTokens)
    simp only [Store.update_external_token, Store.link_external_token,
      Store.get_external_token]
    simp only [hre]
    rfl
  · intro hnone
    unfold LinkedInOAuthProvider.validate_access_token
    simp only [hproxy, Bool.false_eq_true, if_false, htd, hlt, hexpired, if_true, hnone]

/-- Local token data used by the C8 witness. -/
def c8Td : AccessTokenData :=
  { user_id := "user-1", client_id := "client-1", scope := some "profile",
    expires_at := 1000 }

/-- A state whose user holds an expired external token with a refresh
token. -/
def c8PS : ProviderState :=
  { cache := [], pending := [],
    store := { demoStore0 with
      accessTokens := [("tok-1", c8Td)],
      externalTokens := [("user-1", "linkedin",
        { access_token := "li-old", refresh_token := some "li-rt",
          expires_in := 60, expires_at := 400 })] } }

/-- The same state but with no refresh token on the expired external
token. -/
def c8PSb : ProviderState :=
  { cache := [], pending := [],
    store := { demoStore0 with
      accessTokens := [("tok-1", c8Td)],
      externalTokens := [("user-1", "linkedin",
        { access_token := "li-old", refresh_token := none,
          expires_in := 60, expires_at := 400 })] } }

/-- The refreshed LinkedIn token of the C8 witness. -/
def c8NewTok : LinkedInTokenResponse :=
  { access_token := "li-new", refresh_token := some "li-rt2", expires_in := some 7200 }

/-- Witness for C8 at time 500 (local token live until 1000, external token
expired at 400): with a refresh token the new access token `li-new` is
returned; without one the call fails with `invalid_token`. -/
theorem C8_validate_refreshes_or_invalid_token_witness :
    (LinkedInOAuthProvider.validate_access_token demoCfg c8PS "tok-1" (.error "x")
      (.ok c8NewTok) 500).1 = .ok (validateOkResult c8Td "li-new") ∧
    LinkedInOAuthProvider.validate_access_token demoCfg c8PSb "tok-1" (.error "x")
      (.ok c8NewTok) 500 =
      (.error (.tokenError "invalid_token"
        "LinkedIn token expired and no refresh token available"), c8PSb) := by
  constructor
  · rw [(C8_validate_refreshes_or_invalid_token demoCfg c8PS "tok-1" (.error "x")
      (.ok c8NewTok) 500 c8Td
      ({ access_token := "li-old", refresh_token := some "li-rt",
         expires_in := 60, expires_at := 400 })
      rfl rfl rfl (by decide)).1 "li-rt" c8NewTok rfl rfl]
    rfl
  · exact (C8_validate_refreshes_or_invalid_token demoCfg c8PSb "tok-1" (.error "x")
      (.ok c8NewTok) 500 c8Td
      ({ access_token := "li-old", refresh_token := none,
         expires_in := 60, expires_at := 400 })
      rfl rfl rfl (by decide)).2 rfl

end ChukLinkedIn
